import Mathlib

/-!
Shallow embedding of the core of `YOLO_model/deploy/yolo4class_raspi_mod.py`
(the `SerialManager` class, the `WasteClassifier` lookup, and the relay step
of `YOLODetector.detect`), together with proofs about the stability tracker,
the cooldown-gated event counter, the wire-frame encoding, the rate-limited
serial send path, the background receive loop, and the inbound byte filter.

Modelling conventions:
* wall-clock timestamps (`time.time()`) are rationals (`ℚ`); the two
  `time.time()` calls that can occur inside a single Python method invocation
  are modelled as one `now` argument per invocation;
* the `serial.Serial` handle is `Option Bool`: `none` when `stm32_port` is
  `None`, `some b` when the port object exists with `is_open = b`;
* the outcome of the physical `write`/`flush` pair inside the `try` block of
  `send_to_stm32` (which can raise) is an explicit `writeOk : Bool` argument;
* labels (`garbage_type`, the `display_text` string) are `String`s, exactly
  as in the source.
-/

/-- Module-level constant `CAMERA_WIDTH = 1280`. -/
def CAMERA_WIDTH : ℕ := 1280

/-- Module-level constant `CAMERA_HEIGHT = 720`. -/
def CAMERA_HEIGHT : ℕ := 720

/-- Module-level constant `MAX_SERIAL_VALUE = 255`. -/
def MAX_SERIAL_VALUE : ℕ := 255

/-- Instance constant `self.MIN_SEND_INTERVAL = 0.1` (seconds). -/
def MIN_SEND_INTERVAL : ℚ := 1/10

/-- Instance constant `self.COUNT_COOLDOWN = 5.0` (seconds). -/
def COUNT_COOLDOWN : ℚ := 5

/-- Instance constant `self.STABILITY_THRESHOLD = 1.0` (seconds). -/
def STABILITY_THRESHOLD : ℚ := 1

/-- Instance constant `self.DETECTION_RESET_TIME = 0.5` (seconds). -/
def DETECTION_RESET_TIME : ℚ := 1/2

/-- Embeds `WasteClassifier.class_names`: the four known classes. -/
def class_names : List (ℕ × String) :=
  [(0, "厨余垃圾"), (1, "可回收垃圾"), (2, "有害垃圾"), (3, "其他垃圾")]

/-- Embeds `WasteClassifier.category_descriptions`. -/
def category_descriptions : List (ℕ × String) :=
  [(0, "厨余垃圾"), (1, "可回收利用垃圾"), (2, "有害垃圾"), (3, "其他垃圾")]

/-- Embeds `WasteClassifier.get_category_info`: name and description for a class id,
with the `dict.get` fallback strings of the source. -/
def get_category_info (class_id : ℕ) : String × String :=
  ((class_names.lookup class_id).getD "未知分类",
   (category_descriptions.lookup class_id).getD "未知描述")

/-- The `display_text = f"{category_id}({description})"` string built in
`YOLODetector.detect` and passed to `update_garbage_count`. -/
def display_text (class_id : ℕ) : String :=
  (get_category_info class_id).1 ++ "(" ++ (get_category_info class_id).2 ++ ")"

/-- Embeds `self.zero_mapping = max(waste_classifier.class_names.keys()) + 1`,
computed once in `SerialManager.__init__` (`class_names` is nonempty, so the
`foldl max 0` is Python's `max` over the keys). -/
def zero_mapping : ℕ := ((class_names.map Prod.fst).foldl max 0) + 1

/-- One entry of `self.detected_items` (the dict appended by
`update_garbage_count`; `quantity` is always `1` and `status` always
`"正确"` in the source). -/
structure DetectedItem where
  count : ℕ
  gtype : String
  quantity : ℕ
  status : String
deriving DecidableEq, Repr

/-- The mutable state of a `SerialManager` instance. -/
structure SerialManager where
  is_running : Bool
  stm32_port : Option Bool
  last_stm32_send_time : ℚ
  garbage_count : ℕ
  detected_items : List DetectedItem
  last_count_time : ℚ
  is_counting_locked : Bool
  last_detected_type : Option String
  current_detection : Option String
  detection_start_time : ℚ
  stable_detection : Bool
  detection_lost_time : ℚ
deriving DecidableEq, Repr

/-- Embeds `SerialManager.__init__`: `portOk` tells whether the `serial.Serial(...)`
constructor succeeded (on failure the port is `None`). -/
def SerialManager.init (portOk : Bool) : SerialManager where
  is_running := true
  stm32_port := if portOk then some true else none
  last_stm32_send_time := 0
  garbage_count := 0
  detected_items := []
  last_count_time := 0
  is_counting_locked := false
  last_detected_type := none
  current_detection := none
  detection_start_time := 0
  stable_detection := false
  detection_lost_time := 0

/-- Embeds `SerialManager.check_detection_stability(garbage_type)`; `now` is
`current_time = time.time()`. Returns the Python return value and the
updated state. -/
def SerialManager.check_detection_stability (s : SerialManager)
    (garbage_type : String) (now : ℚ) : Bool × SerialManager :=
  if some garbage_type ≠ s.current_detection ∨
      (DETECTION_RESET_TIME < now - s.detection_lost_time ∧
       0 < s.detection_lost_time) then
    (false,
     { s with current_detection := some garbage_type
              detection_start_time := now
              stable_detection := false
              detection_lost_time := 0 })
  else if STABILITY_THRESHOLD ≤ now - s.detection_start_time ∧
      s.stable_detection = false then
    (true, { s with stable_detection := true })
  else
    (s.stable_detection, s)

/-- Embeds `SerialManager.can_count_new_garbage(garbage_type)`. -/
def SerialManager.can_count_new_garbage (s : SerialManager)
    (garbage_type : String) (now : ℚ) : Bool × SerialManager :=
  let r := s.check_detection_stability garbage_type now
  if r.1 = false then (false, r.2)
  else
    let s2 :=
      if some garbage_type ≠ r.2.last_detected_type then
        { r.2 with is_counting_locked := false
                   last_detected_type := some garbage_type }
      else r.2
    if s2.is_counting_locked then
      if COUNT_COOLDOWN ≤ now - s2.last_count_time then
        (true, { s2 with is_counting_locked := false })
      else
        (false, s2)
    else
      (true, s2)

/-- Embeds `SerialManager.update_garbage_count(garbage_type)`. -/
def SerialManager.update_garbage_count (s : SerialManager)
    (garbage_type : String) (now : ℚ) : SerialManager :=
  let r := s.can_count_new_garbage garbage_type now
  if r.1 = false then r.2
  else
    { r.2 with
      garbage_count := r.2.garbage_count + 1
      detected_items := r.2.detected_items ++
        [{ count := r.2.garbage_count + 1, gtype := garbage_type,
           quantity := 1, status := "正确" }]
      last_count_time := now
      is_counting_locked := true
      last_detected_type := some garbage_type }

/-- Python `int()` applied to a rational: truncation toward zero. -/
def pyInt (q : ℚ) : ℤ := if 0 ≤ q then ⌊q⌋ else ⌈q⌉

/-- The coordinate scaling of `send_to_stm32`:
`min(MAX_SERIAL_VALUE, max(0, int(coord * MAX_SERIAL_VALUE / dimension)))`
(the source instantiates `dimension` with `CAMERA_WIDTH` for x and
`CAMERA_HEIGHT` for y). -/
def scaleCoord (coord : ℤ) (dimension : ℕ) : ℕ :=
  (min (MAX_SERIAL_VALUE : ℤ)
    (max 0 (pyInt ((coord * MAX_SERIAL_VALUE : ℚ) / (dimension : ℚ))))).toNat

/-- The 3-byte packet `bytes([class_id, x_scaled, y_scaled])` assembled by
`send_to_stm32`, including the `class_id == 0` remap to `zero_mapping`. -/
def encodeFrame (class_id : ℕ) (center_x center_y : ℤ) : List ℕ :=
  [if class_id = 0 then zero_mapping else class_id,
   scaleCoord center_x CAMERA_WIDTH,
   scaleCoord center_y CAMERA_HEIGHT]

/-- Embeds `SerialManager.send_to_stm32(class_id, center_x, center_y)`.
Returns the updated state and the packet actually written to the port
(`none` when nothing was written). `writeOk` is the outcome of the
`write`/`flush` calls inside the `try` block (`false` = they raised, which
the source catches and logs). -/
def SerialManager.send_to_stm32 (s : SerialManager) (class_id : ℕ)
    (center_x center_y : ℤ) (now : ℚ) (writeOk : Bool) :
    SerialManager × Option (List ℕ) :=
  if s.stm32_port ≠ some true then (s, none)
  else if now - s.last_stm32_send_time < MIN_SEND_INTERVAL then (s, none)
  else if writeOk then
    ({ s with last_stm32_send_time := now },
     some (encodeFrame class_id center_x center_y))
  else
    (s, none)

/-- Embeds `SerialManager.cleanup()`. -/
def SerialManager.cleanup (s : SerialManager) : SerialManager :=
  { s with is_running := false
           stm32_port := if s.stm32_port = some true then some false
                         else s.stm32_port }

/-- The relay step at the end of `YOLODetector.detect` once a best box has
been selected: `send_to_stm32(class_id, center_x, center_y)` followed by
`update_garbage_count(display_text)`. Returns the final state and the packet
sent (if any). -/
def YOLODetector.processDetection (s : SerialManager) (class_id : ℕ)
    (center_x center_y : ℤ) (now : ℚ) (writeOk : Bool) :
    SerialManager × Option (List ℕ) :=
  let r := s.send_to_stm32 class_id center_x center_y now writeOk
  ((r.1.update_garbage_count (display_text class_id) now), r.2)

/-- One outcome of an iteration of the `receive_stm32_data` loop body:
either the `try` block runs without raising (reading `bytes`, possibly
empty), or a `serial.SerialException` is raised (with `reopenOk` the outcome
of the single `self.stm32_port.open()` retry in the handler), or some other
exception is raised (caught by the generic handler). -/
inductive RecvEvent where
  | data (bytes : List ℕ)
  | serialErr (reopenOk : Bool)
  | otherErr
deriving DecidableEq, Repr

/-- One iteration of the `while` body of `receive_stm32_data`: the updated
state, whether the loop continues (`break` on failed reopen), and the
`time.sleep` duration taken in this iteration (`0.01` on the normal path,
`1` in the `SerialException` handler before the reopen attempt, `0` in the
generic handler). -/
def SerialManager.receiveStep (s : SerialManager) :
    RecvEvent → SerialManager × Bool × ℚ
  | .data _ => (s, true, 1/100)
  | .serialErr reopenOk =>
      if reopenOk then ({ s with stm32_port := some true }, true, 1)
      else ({ s with stm32_port := some false }, false, 1)
  | .otherErr => (s, true, 0)

/-- The `while self.is_running and self.stm32_port and self.stm32_port.is_open`
loop of `receive_stm32_data`, driven by a script of iteration outcomes.
Returns the final state and the number of iterations executed. -/
def SerialManager.receive_stm32_data (s : SerialManager) :
    List RecvEvent → SerialManager × ℕ
  | [] => (s, 0)
  | e :: es =>
      if s.is_running = true ∧ s.stm32_port = some true then
        let r := s.receiveStep e
        if r.2.1 then
          let rest := SerialManager.receive_stm32_data r.1 es
          (rest.1, rest.2 + 1)
        else
          (r.1, 1)
      else
        (s, 0)

/-- One byte of a UTF-8 continuation (`0x80..0xBF`). -/
def isCont (b : ℕ) : Bool := 0x80 ≤ b ∧ b ≤ 0xBF

/-- Embeds `bytes.decode('utf-8', errors='replace')`, fuelled so the recursion is
structural (each step consumes at least one byte, so fuel = input length
suffices). Invalid subsequences are replaced by U+FFFD following the maximal
subpart practice CPython implements. Output is the list of code points. -/
def utf8DecodeAux : ℕ → List ℕ → List ℕ
  | 0, _ => []
  | _ + 1, [] => []
  | fuel + 1, b :: rest =>
    if b < 0x80 then b :: utf8DecodeAux fuel rest
    else if 0xC2 ≤ b ∧ b ≤ 0xDF then
      match rest with
      | [] => [0xFFFD]
      | b2 :: rest2 =>
        if isCont b2 then
          ((b - 0xC0) * 0x40 + (b2 - 0x80)) :: utf8DecodeAux fuel rest2
        else 0xFFFD :: utf8DecodeAux fuel (b2 :: rest2)
    else if 0xE0 ≤ b ∧ b ≤ 0xEF then
      match rest with
      | [] => [0xFFFD]
      | b2 :: rest2 =>
        if (b = 0xE0 ∧ 0xA0 ≤ b2 ∧ b2 ≤ 0xBF) ∨
           (0xE1 ≤ b ∧ b ≤ 0xEC ∧ isCont b2) ∨
           (b = 0xED ∧ 0x80 ≤ b2 ∧ b2 ≤ 0x9F) ∨
           (0xEE ≤ b ∧ b ≤ 0xEF ∧ isCont b2) then
          match rest2 with
          | [] => [0xFFFD]
          | b3 :: rest3 =>
            if isCont b3 then
              ((b - 0xE0) * 0x1000 + (b2 - 0x80) * 0x40 + (b3 - 0x80)) ::
                utf8DecodeAux fuel rest3
            else 0xFFFD :: utf8DecodeAux fuel (b3 :: rest3)
        else 0xFFFD :: utf8DecodeAux fuel (b2 :: rest2)
    else if 0xF0 ≤ b ∧ b ≤ 0xF4 then
      match rest with
      | [] => [0xFFFD]
      | b2 :: rest2 =>
        if (b = 0xF0 ∧ 0x90 ≤ b2 ∧ b2 ≤ 0xBF) ∨
           (0xF1 ≤ b ∧ b ≤ 0xF3 ∧ isCont b2) ∨
           (b = 0xF4 ∧ 0x80 ≤ b2 ∧ b2 ≤ 0x8F) then
          match rest2 with
          | [] => [0xFFFD]
          | b3 :: rest3 =>
            if isCont b3 then
              match rest3 with
              | [] => [0xFFFD]
              | b4 :: rest4 =>
                if isCont b4 then
                  ((b - 0xF0) * 0x40000 + (b2 - 0x80) * 0x1000 +
                   (b3 - 0x80) * 0x40 + (b4 - 0x80)) ::
                    utf8DecodeAux fuel rest4
                else 0xFFFD :: utf8DecodeAux fuel (b4 :: rest4)
            else 0xFFFD :: utf8DecodeAux fuel (b3 :: rest3)
        else 0xFFFD :: utf8DecodeAux fuel (b2 :: rest2)
    else 0xFFFD :: utf8DecodeAux fuel rest

/-- Embeds `bytes.decode('utf-8', errors='replace')` on a byte list. -/
def utf8DecodeReplace (bytes : List ℕ) : List ℕ :=
  utf8DecodeAux bytes.length bytes

/-- Code points stripped by Python `str.strip()` (whitespace per
`str.isspace`, restricted to the Latin-1 range, which covers every code
point this model can meet at the strip site). -/
def isPySpace (c : ℕ) : Bool :=
  c = 0x20 ∨ (0x09 ≤ c ∧ c ≤ 0x0D) ∨ (0x1C ≤ c ∧ c ≤ 0x1F) ∨
  c = 0x85 ∨ c = 0xA0

/-- Python `str.strip()` on a list of code points. -/
def pyStrip (cs : List ℕ) : List ℕ :=
  (((cs.dropWhile isPySpace).reverse).dropWhile isPySpace).reverse

/-- The inbound filter of `receive_stm32_data`:
`decoded_data = data.decode('utf-8', errors='replace').strip()` followed by
`any(c not in ['\x00', '\xff'] for c in decoded_data)` — `true` means the
buffer is surfaced (logged), `false` means it is silently discarded. -/
def surfacesInboundData (bytes : List ℕ) : Bool :=
  (pyStrip (utf8DecodeReplace bytes)).any (fun c => ¬(c = 0x00 ∨ c = 0xFF))

/-- A run of `check_detection_stability` calls with one fixed
`garbage_type`, at the given list of timestamps: the list of return values
and the final state. -/
def SerialManager.observeRun (s : SerialManager) (garbage_type : String) :
    List ℚ → List Bool × SerialManager
  | [] => ([], s)
  | t :: ts =>
      let r := s.check_detection_stability garbage_type t
      let rest := r.2.observeRun garbage_type ts
      (r.1 :: rest.1, rest.2)

/-- A run of `update_garbage_count` calls with one fixed `garbage_type`:
the timestamps of exactly those calls that incremented `garbage_count`. -/
def SerialManager.countTimes (s : SerialManager) (garbage_type : String) :
    List ℚ → List ℚ
  | [] => []
  | t :: ts =>
      let s' := s.update_garbage_count garbage_type t
      if s'.garbage_count = s.garbage_count then s'.countTimes garbage_type ts
      else t :: s'.countTimes garbage_type ts

/-- The states a `SerialManager` instance can reach: the initial state
(with either outcome of the port open), closed under every method of the
class and under iterations of the background receive loop. -/
inductive SerialManager.Reachable : SerialManager → Prop
  | init (portOk : Bool) : SerialManager.Reachable (SerialManager.init portOk)
  | check (s : SerialManager) (g : String) (now : ℚ) :
      SerialManager.Reachable s →
      SerialManager.Reachable (s.check_detection_stability g now).2
  | canCount (s : SerialManager) (g : String) (now : ℚ) :
      SerialManager.Reachable s →
      SerialManager.Reachable (s.can_count_new_garbage g now).2
  | update (s : SerialManager) (g : String) (now : ℚ) :
      SerialManager.Reachable s →
      SerialManager.Reachable (s.update_garbage_count g now)
  | send (s : SerialManager) (cid : ℕ) (cx cy : ℤ) (now : ℚ) (wOk : Bool) :
      SerialManager.Reachable s →
      SerialManager.Reachable (s.send_to_stm32 cid cx cy now wOk).1
  | recv (s : SerialManager) (e : RecvEvent) :
      SerialManager.Reachable s →
      SerialManager.Reachable (s.receiveStep e).1
  | cleanup (s : SerialManager) :
      SerialManager.Reachable s →
      SerialManager.Reachable s.cleanup

/-- Modelled from the spec: `scaled = clamp(round(coord * 255 / dimension),
0, 255)` with the spec's `round`, for comparison with the source's `int()`
truncation in `scaleCoord`. -/
def scaleCoordSpec (coord : ℤ) (dimension : ℕ) : ℕ :=
  (min (MAX_SERIAL_VALUE : ℤ)
    (max 0 (round ((coord * MAX_SERIAL_VALUE : ℚ) / (dimension : ℚ))))).toNat

/-! ### Helper lemmas on `check_detection_stability` -/

/-- With the tracked class unchanged and `detection_lost_time = 0`,
`check_detection_stability` takes no reset: it returns the sticky flag,
raised at the stabilization instant, and keeps every other field. -/
theorem check_detection_stability_same (s : SerialManager) (g : String)
    (now : ℚ) (hcur : s.current_detection = some g)
    (hlost : s.detection_lost_time = 0) :
    s.check_detection_stability g now =
      (s.stable_detection ||
         decide (STABILITY_THRESHOLD ≤ now - s.detection_start_time),
       { s with stable_detection := s.stable_detection ||
           decide (STABILITY_THRESHOLD ≤ now - s.detection_start_time) }) := by
  obtain ⟨ir, sp, lsst, gc, di, lct, icl, ldt, cd, dst, sd, dlt⟩ := s
  simp only at hcur hlost
  subst hcur hlost
  unfold SerialManager.check_detection_stability
  rw [if_neg (by simp)]
  by_cases h : STABILITY_THRESHOLD ≤ now - dst
  · cases sd
    · rw [if_pos ⟨h, rfl⟩]; simp [h]
    · rw [if_neg (by simp)]; simp [h]
  · rw [if_neg (by tauto)]
    simp [h]

/-- When the observed class differs from the tracked one,
`check_detection_stability` resets and returns `false`. -/
theorem check_detection_stability_reset (s : SerialManager) (g : String)
    (now : ℚ) (hnew : some g ≠ s.current_detection) :
    s.check_detection_stability g now =
      (false,
       { s with current_detection := some g, detection_start_time := now,
                stable_detection := false, detection_lost_time := 0 }) := by
  unfold SerialManager.check_detection_stability
  rw [if_pos (Or.inl hnew)]

/-- Lemma: `check_detection_stability` touches only the four detection fields. -/
theorem check_detection_stability_frame (s : SerialManager) (g : String)
    (now : ℚ) :
    (s.check_detection_stability g now).2.is_running = s.is_running ∧
    (s.check_detection_stability g now).2.stm32_port = s.stm32_port ∧
    (s.check_detection_stability g now).2.last_stm32_send_time
      = s.last_stm32_send_time ∧
    (s.check_detection_stability g now).2.garbage_count = s.garbage_count ∧
    (s.check_detection_stability g now).2.detected_items = s.detected_items ∧
    (s.check_detection_stability g now).2.last_count_time
      = s.last_count_time ∧
    (s.check_detection_stability g now).2.is_counting_locked
      = s.is_counting_locked ∧
    (s.check_detection_stability g now).2.last_detected_type
      = s.last_detected_type := by
  unfold SerialManager.check_detection_stability
  split_ifs <;> simp

/-- Lemma: `check_detection_stability` keeps `detection_lost_time = 0`. -/
theorem check_detection_stability_lost (s : SerialManager) (g : String)
    (now : ℚ) (h : s.detection_lost_time = 0) :
    (s.check_detection_stability g now).2.detection_lost_time = 0 := by
  unfold SerialManager.check_detection_stability
  split_ifs <;> simp [h]

/-- A same-class run of `check_detection_stability` with
`detection_lost_time = 0` and nondecreasing timestamps: each call returns
the sticky flag OR-ed with "the window has been open at least
`STABILITY_THRESHOLD`". -/
theorem observeRun_same (ts : List ℚ) (s : SerialManager) (g : String)
    (hcur : s.current_detection = some g)
    (hlost : s.detection_lost_time = 0)
    (hsort : List.Sorted (· ≤ ·) ts) :
    (s.observeRun g ts).1 =
      ts.map (fun t => s.stable_detection ||
        decide (STABILITY_THRESHOLD ≤ t - s.detection_start_time)) := by
  induction ts generalizing s with
  | nil => simp [SerialManager.observeRun]
  | cons t ts ih =>
    rw [List.sorted_cons] at hsort
    have hc := check_detection_stability_same s g t hcur hlost
    simp only [SerialManager.observeRun, hc, List.map_cons, List.cons.injEq]
    refine ⟨trivial, ?_⟩
    rw [ih _ (by simp [hcur]) (by simp [hlost]) hsort.2]
    simp only []
    refine List.map_congr_left (fun u hu => ?_)
    by_cases h1 : STABILITY_THRESHOLD ≤ t - s.detection_start_time
    · have h2 : STABILITY_THRESHOLD ≤ u - s.detection_start_time := by
        have := hsort.1 u hu
        linarith
      simp [h1, h2]
    · simp [h1]

/-- Claim C2: for a sequence of observations of one identical class (first
observed at `t0`, then at nondecreasing times `ts`, with no reset
condition), `check_detection_stability` returns `false` at the opening call
and afterwards returns `true` exactly from the first call at which the
window has been open at least `STABILITY_THRESHOLD` (1.0s) on — `true` at
that call and at every later call of the run (the stable flag is sticky). -/
theorem C2_stability_window (s : SerialManager) (c : String) (t0 : ℚ)
    (ts : List ℚ) (hnew : some c ≠ s.current_detection)
    (hsort : List.Sorted (· ≤ ·) (t0 :: ts)) :
    (s.observeRun c (t0 :: ts)).1 =
      false :: ts.map (fun t => decide (STABILITY_THRESHOLD ≤ t - t0)) := by
  rw [List.sorted_cons] at hsort
  have hr := check_detection_stability_reset s c t0 hnew
  simp only [SerialManager.observeRun, hr, List.cons.injEq]
  refine ⟨trivial, ?_⟩
  rw [observeRun_same ts _ c (by simp) (by simp) hsort.2]
  simp

/-- Witness for C2: five observations of one class at 0.3s intervals
stabilize exactly at the fourth one (t = 1.2s ≥ 1.0s) and stay stable. -/
theorem C2_stability_window_witness :
    ((SerialManager.init true).observeRun "厨余垃圾(厨余垃圾)"
        [0, 3/10, 6/10, 9/10, 12/10]).1 =
      [false, false, false, false, true] := by
  rw [C2_stability_window (SerialManager.init true) "厨余垃圾(厨余垃圾)" 0
      [3/10, 6/10, 9/10, 12/10] (by simp [SerialManager.init])
      (by norm_num [List.sorted_cons])]
  norm_num [STABILITY_THRESHOLD]

/-- Claim C3 counterexample: after one observation of a class at t = 0, a
second observation of the same class at t = 10 — the tracked class was last
confirmed 10s > `DETECTION_RESET_TIME` (0.5s) before the call — does NOT
reset the tracker: the call returns `true` (not `false`) and the window
clock still starts at 0 (not restarted). -/
theorem C3_counterexample :
    (((SerialManager.init true).check_detection_stability
        "可回收垃圾(可回收利用垃圾)" 0).2.check_detection_stability
        "可回收垃圾(可回收利用垃圾)" 10).1 = true ∧
    (((SerialManager.init true).check_detection_stability
        "可回收垃圾(可回收利用垃圾)" 0).2.check_detection_stability
        "可回收垃圾(可回收利用垃圾)" 10).2.detection_start_time = 0 ∧
    DETECTION_RESET_TIME < 10 - (0 : ℚ) := by
  have hr := check_detection_stability_reset (SerialManager.init true)
    "可回收垃圾(可回收利用垃圾)" 0 (by simp [SerialManager.init])
  rw [hr]
  rw [check_detection_stability_same _ _ 10 (by simp) (by simp)]
  norm_num [STABILITY_THRESHOLD, DETECTION_RESET_TIME]

/-- Claim C3 amended: with `detection_lost_time = 0` (which holds in every
reachable state), `check_detection_stability` resets the tracker — tracked
class set to the observed class, window clock restarted, stable flag
cleared, `false` returned — exactly when the observed class differs from
the tracked class; on the same class the call never resets, whatever the
time since the class was last confirmed, because the elapsed-time disjunct
compares against `detection_lost_time` and is guarded by
`detection_lost_time > 0`. -/
theorem C3_reset_iff_class_change (s : SerialManager) (g : String) (now : ℚ)
    (hlost : s.detection_lost_time = 0) :
    (some g ≠ s.current_detection →
      s.check_detection_stability g now =
        (false,
         { s with current_detection := some g, detection_start_time := now,
                  stable_detection := false, detection_lost_time := 0 })) ∧
    (some g = s.current_detection →
      s.check_detection_stability g now =
        (s.stable_detection ||
           decide (STABILITY_THRESHOLD ≤ now - s.detection_start_time),
         { s with stable_detection := s.stable_detection ||
             decide (STABILITY_THRESHOLD ≤ now - s.detection_start_time) })) :=
  ⟨fun hnew => check_detection_stability_reset s g now hnew,
   fun hsame => check_detection_stability_same s g now hsame.symm hlost⟩

/-- Witness for the amended C3: a fresh class resets and returns `false`;
the same class seen again 9s later (far beyond `DETECTION_RESET_TIME`)
does not reset and returns `true`. -/
theorem C3_reset_iff_class_change_witness :
    ((SerialManager.init true).check_detection_stability "其他垃圾(其他垃圾)" 0).1
      = false ∧
    (((SerialManager.init true).check_detection_stability "其他垃圾(其他垃圾)"
        0).2.check_detection_stability "其他垃圾(其他垃圾)" 9).1 = true := by
  have h1 := (C3_reset_iff_class_change (SerialManager.init true)
    "其他垃圾(其他垃圾)" 0 rfl).1 (by simp [SerialManager.init])
  rw [h1]
  refine ⟨rfl, ?_⟩
  rw [(C3_reset_iff_class_change _ "其他垃圾(其他垃圾)" 9 rfl).2 rfl]
  norm_num [STABILITY_THRESHOLD]

/-- Lemma: `can_count_new_garbage` keeps `detection_lost_time = 0`. -/
theorem can_count_new_garbage_lost (s : SerialManager) (g : String) (now : ℚ)
    (h : s.detection_lost_time = 0) :
    (s.can_count_new_garbage g now).2.detection_lost_time = 0 := by
  have hc := check_detection_stability_lost s g now h
  simp only [SerialManager.can_count_new_garbage]
  split_ifs <;> simp_all

/-- Lemma: `update_garbage_count` keeps `detection_lost_time = 0`. -/
theorem update_garbage_count_lost (s : SerialManager) (g : String) (now : ℚ)
    (h : s.detection_lost_time = 0) :
    (s.update_garbage_count g now).detection_lost_time = 0 := by
  have hc := can_count_new_garbage_lost s g now h
  simp only [SerialManager.update_garbage_count]
  split_ifs <;> simp_all

/-- Lemma: `send_to_stm32` never touches `detection_lost_time`. -/
theorem send_to_stm32_lost (s : SerialManager) (cid : ℕ) (cx cy : ℤ)
    (now : ℚ) (wOk : Bool) :
    (s.send_to_stm32 cid cx cy now wOk).1.detection_lost_time
      = s.detection_lost_time := by
  unfold SerialManager.send_to_stm32
  split_ifs <;> simp

/-- Receive-loop iterations never touch `detection_lost_time`. -/
theorem receiveStep_lost (s : SerialManager) (e : RecvEvent) :
    (s.receiveStep e).1.detection_lost_time = s.detection_lost_time := by
  cases e
  · rfl
  · simp only [SerialManager.receiveStep]
    split_ifs <;> rfl
  · rfl

/-- Lemma: `cleanup` never touches `detection_lost_time`. -/
theorem cleanup_lost (s : SerialManager) :
    s.cleanup.detection_lost_time = s.detection_lost_time := rfl

/-- Lemma: `detection_lost_time` equals `0` in every reachable state: it is
initialized to `0` and the only assignment to it (in the reset branch of
`check_detection_stability`) writes `0`. -/
theorem reachable_lost (s : SerialManager) (h : s.Reachable) :
    s.detection_lost_time = 0 := by
  induction h with
  | init portOk => rfl
  | check s g now _ ih => exact check_detection_stability_lost s g now ih
  | canCount s g now _ ih => exact can_count_new_garbage_lost s g now ih
  | update s g now _ ih => exact update_garbage_count_lost s g now ih
  | send s cid cx cy now wOk _ ih => rw [send_to_stm32_lost]; exact ih
  | recv s e _ ih => rw [receiveStep_lost]; exact ih
  | cleanup s _ ih => rw [cleanup_lost]; exact ih

/-- Claim C10: in every reachable `SerialManager` state,
`detection_lost_time = 0`; hence the `DETECTION_RESET_TIME`-timeout
disjunct of the reset condition of `check_detection_stability` never
holds, and on a call whose observed class equals the tracked class no
reset happens — the state keeps its window clock and only the sticky flag
can change. A stability reset can be triggered only by a class change. -/
theorem C10_lost_time_invariant (s : SerialManager) (h : s.Reachable) :
    s.detection_lost_time = 0 ∧
    (∀ now : ℚ, ¬(DETECTION_RESET_TIME < now - s.detection_lost_time ∧
        0 < s.detection_lost_time)) ∧
    ∀ (g : String) (now : ℚ), some g = s.current_detection →
      s.check_detection_stability g now =
        (s.stable_detection ||
           decide (STABILITY_THRESHOLD ≤ now - s.detection_start_time),
         { s with stable_detection := s.stable_detection ||
             decide (STABILITY_THRESHOLD ≤ now - s.detection_start_time) }) := by
  have hl := reachable_lost s h
  refine ⟨hl, ?_, ?_⟩
  · intro now hcon
    rw [hl] at hcon
    exact absurd hcon.2 (lt_irrefl 0)
  · intro g now hg
    exact check_detection_stability_same s g now hg.symm hl

/-- Witness for C10, at the reachable state obtained from `__init__`
followed by one `check_detection_stability` call. -/
theorem C10_lost_time_invariant_witness :
    ((SerialManager.init true).check_detection_stability "有害垃圾(有害垃圾)"
        0).2.detection_lost_time = 0 ∧
    (((SerialManager.init true).check_detection_stability "有害垃圾(有害垃圾)"
        0).2.check_detection_stability "有害垃圾(有害垃圾)" 3).1 = true := by
  have hreach : SerialManager.Reachable
      ((SerialManager.init true).check_detection_stability "有害垃圾(有害垃圾)"
        0).2 :=
    SerialManager.Reachable.check _ _ _ (SerialManager.Reachable.init true)
  have hmain := C10_lost_time_invariant _ hreach
  have hr := check_detection_stability_reset (SerialManager.init true)
    "有害垃圾(有害垃圾)" 0 (by simp [SerialManager.init])
  refine ⟨hmain.1, ?_⟩
  have h2 := hmain.2.2 "有害垃圾(有害垃圾)" 3 (by rw [hr])
  rw [h2, hr]
  norm_num [STABILITY_THRESHOLD]

/-! ### Helper lemmas on the event counter -/

/-- Lemma: `can_count_new_garbage` never changes `garbage_count`. -/
theorem can_count_new_garbage_gc (s : SerialManager) (g : String) (now : ℚ) :
    (s.can_count_new_garbage g now).2.garbage_count = s.garbage_count := by
  obtain ⟨-, -, -, hgc, -, -, -, -⟩ := check_detection_stability_frame s g now
  simp only [SerialManager.can_count_new_garbage]
  split_ifs <;> simp_all

/-- A stability-confirmed call whose label differs from
`last_detected_type` always passes `can_count_new_garbage` (the lock is
cleared unconditionally on a label change). -/
theorem can_count_label_change (s : SerialManager) (g : String) (now : ℚ)
    (hstable : (s.check_detection_stability g now).1 = true)
    (hdiff : some g ≠ s.last_detected_type) :
    (s.can_count_new_garbage g now).1 = true := by
  obtain ⟨-, -, -, -, -, -, -, hldt⟩ := check_detection_stability_frame s g now
  simp only [SerialManager.can_count_new_garbage, hstable, hldt]
  simp [hdiff]

/-- A locked state with the same label passes `can_count_new_garbage` only
once the cooldown has elapsed. -/
theorem can_count_locked_gate (s : SerialManager) (g : String) (now : ℚ)
    (hlock : s.is_counting_locked = true)
    (hlast : s.last_detected_type = some g)
    (htrue : (s.can_count_new_garbage g now).1 = true) :
    COUNT_COOLDOWN ≤ now - s.last_count_time := by
  obtain ⟨-, -, -, -, -, hlct, hicl, hldt⟩ :=
    check_detection_stability_frame s g now
  by_cases hcd : COUNT_COOLDOWN ≤ now - s.last_count_time
  · exact hcd
  · exfalso
    simp only [SerialManager.can_count_new_garbage] at htrue
    rw [hldt, hlast] at htrue
    cases hr1 : (s.check_detection_stability g now).1 with
    | false => rw [hr1] at htrue; simp at htrue
    | true => rw [hr1] at htrue; simp [hicl, hlock, hlct, hcd] at htrue

/-- When `can_count_new_garbage` refuses, it leaves the counter lock
fields untouched. -/
theorem can_count_false_frame (s : SerialManager) (g : String) (now : ℚ)
    (hfalse : (s.can_count_new_garbage g now).1 = false) :
    (s.can_count_new_garbage g now).2.is_counting_locked
        = s.is_counting_locked ∧
    (s.can_count_new_garbage g now).2.last_detected_type
        = s.last_detected_type ∧
    (s.can_count_new_garbage g now).2.last_count_time = s.last_count_time := by
  obtain ⟨-, -, -, -, -, hlct, hicl, hldt⟩ :=
    check_detection_stability_frame s g now
  simp only [SerialManager.can_count_new_garbage] at hfalse ⊢
  split_ifs at hfalse ⊢ <;> simp_all

/-- When `can_count_new_garbage` refuses, `update_garbage_count` is just
its state update. -/
theorem update_garbage_count_of_false (s : SerialManager) (g : String)
    (now : ℚ) (hfalse : (s.can_count_new_garbage g now).1 = false) :
    s.update_garbage_count g now = (s.can_count_new_garbage g now).2 := by
  simp only [SerialManager.update_garbage_count, hfalse, if_pos]

/-- When `can_count_new_garbage` passes, `update_garbage_count` counts and
re-arms the lock at `now` for this label. -/
theorem update_garbage_count_of_true (s : SerialManager) (g : String)
    (now : ℚ) (htrue : (s.can_count_new_garbage g now).1 = true) :
    (s.update_garbage_count g now).garbage_count = s.garbage_count + 1 ∧
    (s.update_garbage_count g now).is_counting_locked = true ∧
    (s.update_garbage_count g now).last_detected_type = some g ∧
    (s.update_garbage_count g now).last_count_time = now := by
  have hgc := can_count_new_garbage_gc s g now
  simp only [SerialManager.update_garbage_count, htrue]
  simp [hgc]

/-- Lemma: `update_garbage_count` increments `garbage_count` exactly when
`can_count_new_garbage` passes. -/
theorem update_garbage_count_gc_iff (s : SerialManager) (g : String)
    (now : ℚ) :
    (s.update_garbage_count g now).garbage_count
      = if (s.can_count_new_garbage g now).1 then s.garbage_count + 1
        else s.garbage_count := by
  cases htrue : (s.can_count_new_garbage g now).1
  · rw [update_garbage_count_of_false s g now htrue,
      can_count_new_garbage_gc]
    simp
  · simp [(update_garbage_count_of_true s g now htrue).1]

/-- From a locked state whose `last_detected_type` is the run's label and
whose `last_count_time` is `t0`, every accepted count in a same-label run
of `update_garbage_count` calls (at nondecreasing times) is at least
`COUNT_COOLDOWN` after the previous one, starting from `t0`. -/
theorem countTimes_chain_locked (ts : List ℚ) (s : SerialManager)
    (g : String) (t0 : ℚ) (hsort : List.Sorted (· ≤ ·) ts)
    (hlock : s.is_counting_locked = true)
    (hlast : s.last_detected_type = some g)
    (hlct : s.last_count_time = t0) :
    List.Chain (fun a b => a + COUNT_COOLDOWN ≤ b) t0 (s.countTimes g ts) := by
  induction ts generalizing s t0 with
  | nil => exact List.Chain.nil
  | cons t ts ih =>
    rw [List.sorted_cons] at hsort
    by_cases hcc : (s.can_count_new_garbage g t).1 = true
    · have hupd := update_garbage_count_of_true s g t hcc
      have hne : ¬(s.update_garbage_count g t).garbage_count
          = s.garbage_count := by
        rw [hupd.1]; omega
      have hstep : s.countTimes g (t :: ts) =
          t :: (s.update_garbage_count g t).countTimes g ts := by
        simp only [SerialManager.countTimes]
        rw [if_neg hne]
      rw [hstep]
      have hgate := can_count_locked_gate s g t hlock hlast hcc
      rw [hlct] at hgate
      exact List.Chain.cons (by linarith)
        (ih _ t hsort.2 hupd.2.1 hupd.2.2.1 hupd.2.2.2)
    · rw [Bool.not_eq_true] at hcc
      have hupd := update_garbage_count_of_false s g t hcc
      obtain ⟨h1, h2, h3⟩ := can_count_false_frame s g t hcc
      have hgc : (s.update_garbage_count g t).garbage_count
          = s.garbage_count := by
        rw [hupd, can_count_new_garbage_gc]
      have hstep : s.countTimes g (t :: ts) =
          (s.update_garbage_count g t).countTimes g ts := by
        simp only [SerialManager.countTimes]
        rw [if_pos hgc]
      rw [hstep]
      refine ih _ t0 hsort.2 ?_ ?_ ?_
      · rw [hupd, h1]; exact hlock
      · rw [hupd, h2]; exact hlast
      · rw [hupd, h3]; exact hlct

/-- In any same-label run of `update_garbage_count` calls at nondecreasing
times, consecutive accepted counts are at least `COUNT_COOLDOWN` apart. -/
theorem countTimes_chain (ts : List ℚ) (s : SerialManager) (g : String)
    (hsort : List.Sorted (· ≤ ·) ts) :
    List.Chain' (fun a b => a + COUNT_COOLDOWN ≤ b) (s.countTimes g ts) := by
  induction ts generalizing s with
  | nil => exact trivial
  | cons t ts ih =>
    rw [List.sorted_cons] at hsort
    by_cases hcc : (s.can_count_new_garbage g t).1 = true
    · have hupd := update_garbage_count_of_true s g t hcc
      have hne : ¬(s.update_garbage_count g t).garbage_count
          = s.garbage_count := by
        rw [hupd.1]; omega
      have hstep : s.countTimes g (t :: ts) =
          t :: (s.update_garbage_count g t).countTimes g ts := by
        simp only [SerialManager.countTimes]
        rw [if_neg hne]
      rw [hstep]
      exact countTimes_chain_locked ts _ g t hsort.2
        hupd.2.1 hupd.2.2.1 hupd.2.2.2
    · rw [Bool.not_eq_true] at hcc
      have hupd := update_garbage_count_of_false s g t hcc
      have hgc : (s.update_garbage_count g t).garbage_count
          = s.garbage_count := by
        rw [hupd, can_count_new_garbage_gc]
      have hstep : s.countTimes g (t :: ts) =
          (s.update_garbage_count g t).countTimes g ts := by
        simp only [SerialManager.countTimes]
        rw [if_pos hgc]
      rw [hstep]
      exact ih _ hsort.2

/-- Claim C1: in any same-label run of `update_garbage_count` calls at
nondecreasing times, the counter never increments twice within a
`COUNT_COOLDOWN` (5.0s) window — consecutive accepted counts are ≥ 5s
apart; and any call whose stability check passes and whose label differs
from the last counted label (`last_detected_type`) increments immediately,
whatever the lock or cooldown state. -/
theorem C1_cooldown_and_label_switch (s : SerialManager) (g : String)
    (ts : List ℚ) (hsort : List.Sorted (· ≤ ·) ts) :
    List.Chain' (fun a b => a + COUNT_COOLDOWN ≤ b) (s.countTimes g ts) ∧
    ∀ (s' : SerialManager) (g' : String) (now : ℚ),
      (s'.check_detection_stability g' now).1 = true →
      some g' ≠ s'.last_detected_type →
      (s'.update_garbage_count g' now).garbage_count
        = s'.garbage_count + 1 := by
  refine ⟨countTimes_chain ts s g hsort, fun s' g' now hstable hdiff => ?_⟩
  exact (update_garbage_count_of_true s' g' now
    (can_count_label_change s' g' now hstable hdiff)).1

/-- Witness for C1: a concrete same-label run (counts at t = 2 and t = 7,
5s apart), and an immediate increment on a label switch at t = 2 from a
fresh tracked state. -/
theorem C1_cooldown_and_label_switch_witness :
    List.Chain' (fun a b => a + COUNT_COOLDOWN ≤ b)
      ((SerialManager.init true).countTimes "厨余垃圾(厨余垃圾)"
        [0, 1/2, 2, 7]) ∧
    (({ SerialManager.init true with
        current_detection := some "其他垃圾(其他垃圾)" }
          : SerialManager).update_garbage_count "其他垃圾(其他垃圾)"
        2).garbage_count
      = ({ SerialManager.init true with
          current_detection := some "其他垃圾(其他垃圾)" }
            : SerialManager).garbage_count + 1 := by
  have H := C1_cooldown_and_label_switch (SerialManager.init true)
    "厨余垃圾(厨余垃圾)" [0, 1/2, 2, 7] (by norm_num [List.sorted_cons])
  refine ⟨H.1, H.2 _ "其他垃圾(其他垃圾)" 2 ?_ ?_⟩
  · rw [check_detection_stability_same _ _ _ rfl rfl]
    norm_num [STABILITY_THRESHOLD, SerialManager.init]
  · simp [SerialManager.init]

/-! ### Helper lemmas on the send path -/

/-- Lemma: `send_to_stm32` writes a packet exactly when the port is open, the
rate limiter allows it, and the physical write succeeds — and that packet
is `encodeFrame`. -/
theorem send_to_stm32_frame_iff (s : SerialManager) (cid : ℕ) (cx cy : ℤ)
    (now : ℚ) (wOk : Bool) :
    (s.send_to_stm32 cid cx cy now wOk).2 =
      if s.stm32_port = some true ∧
          MIN_SEND_INTERVAL ≤ now - s.last_stm32_send_time ∧ wOk = true
      then some (encodeFrame cid cx cy) else none := by
  unfold SerialManager.send_to_stm32
  by_cases hp : s.stm32_port = some true
  · by_cases hr : now - s.last_stm32_send_time < MIN_SEND_INTERVAL
    · rw [if_neg (not_not_intro hp), if_pos hr,
        if_neg (fun hc => absurd hc.2.1 (not_le.mpr hr))]
    · cases wOk
      · rw [if_neg (not_not_intro hp), if_neg hr, if_neg Bool.false_ne_true,
          if_neg (fun hc => Bool.false_ne_true hc.2.2)]
      · rw [if_neg (not_not_intro hp), if_neg hr, if_pos rfl,
          if_pos ⟨hp, not_lt.mp hr, rfl⟩]
  · rw [if_pos hp, if_neg (fun hc => hp hc.1)]

/-- Claim C7: `send_to_stm32` is a no-op when the link is not open; drops
the frame without error when called within `MIN_SEND_INTERVAL` (0.1s) of
the last send; leaves `last_stm32_send_time` unchanged on a write failure;
leaves the whole state unchanged whenever nothing was written; and sets
`last_stm32_send_time := now` exactly on a successful write. -/
theorem C7_send_guards (s : SerialManager) (cid : ℕ) (cx cy : ℤ)
    (now : ℚ) (wOk : Bool) :
    (s.stm32_port ≠ some true →
      s.send_to_stm32 cid cx cy now wOk = (s, none)) ∧
    (now - s.last_stm32_send_time < MIN_SEND_INTERVAL →
      s.send_to_stm32 cid cx cy now wOk = (s, none)) ∧
    (wOk = false →
      (s.send_to_stm32 cid cx cy now wOk).1.last_stm32_send_time
        = s.last_stm32_send_time) ∧
    ((s.send_to_stm32 cid cx cy now wOk).2 = none →
      (s.send_to_stm32 cid cx cy now wOk).1 = s) ∧
    ((s.send_to_stm32 cid cx cy now wOk).2 ≠ none →
      (s.send_to_stm32 cid cx cy now wOk).1.last_stm32_send_time = now ∧
      wOk = true ∧ MIN_SEND_INTERVAL ≤ now - s.last_stm32_send_time ∧
      s.stm32_port = some true) := by
  unfold SerialManager.send_to_stm32
  split_ifs with h1 h2 h3
  · exact ⟨fun _ => rfl, fun _ => rfl, fun _ => rfl, fun _ => rfl,
      fun hn => absurd rfl hn⟩
  · exact ⟨fun _ => rfl, fun _ => rfl, fun _ => rfl, fun _ => rfl,
      fun hn => absurd rfl hn⟩
  · exact ⟨fun hp => absurd hp h1, fun hlt => absurd hlt h2,
      fun hw => absurd h3 (by simp [hw]), fun hn => absurd hn (by simp),
      fun _ => ⟨rfl, h3, not_lt.mp h2, not_not.mp h1⟩⟩
  · exact ⟨fun _ => rfl, fun _ => rfl, fun _ => rfl, fun _ => rfl,
      fun hn => absurd rfl hn⟩

/-- Witness for C7: a closed port, a rate-limited call, and a failed
write, each leaving the state untouched. -/
theorem C7_send_guards_witness :
    (SerialManager.init false).send_to_stm32 2 640 360 1 true
      = (SerialManager.init false, none) ∧
    (SerialManager.init true).send_to_stm32 2 640 360 (1/100) true
      = (SerialManager.init true, none) ∧
    ((SerialManager.init true).send_to_stm32 2 640 360 1
        false).1.last_stm32_send_time
      = (SerialManager.init true).last_stm32_send_time :=
  ⟨(C7_send_guards _ 2 640 360 1 true).1 (by simp [SerialManager.init]),
   (C7_send_guards _ 2 640 360 (1/100) true).2.1
     (by norm_num [SerialManager.init, MIN_SEND_INTERVAL]),
   (C7_send_guards _ 2 640 360 1 false).2.2.1 rfl⟩

/-- Claim C4 counterexample: the very first detection processed by the relay
— for which the stability check returns `false` (not yet stable) and the
event counter does not count — still hands a packet to the serial write.
The relay is not gated by stability. -/
theorem C4_counterexample :
    (YOLODetector.processDetection (SerialManager.init true) 1 640 360 1
        true).2 = some (encodeFrame 1 640 360) ∧
    ((SerialManager.init true).check_detection_stability (display_text 1)
        1).1 = false ∧
    (YOLODetector.processDetection (SerialManager.init true) 1 640 360 1
        true).1.garbage_count = 0 := by
  have hsend : (SerialManager.init true).send_to_stm32 1 640 360 1 true
      = ({ SerialManager.init true with last_stm32_send_time := 1 },
         some (encodeFrame 1 640 360)) := by
    unfold SerialManager.send_to_stm32
    rw [if_neg (by simp [SerialManager.init]),
      if_neg (by norm_num [SerialManager.init, MIN_SEND_INTERVAL]),
      if_pos rfl]
  refine ⟨?_, ?_, ?_⟩
  · simp only [YOLODetector.processDetection, hsend]
  · rw [check_detection_stability_reset _ _ _ (by simp [SerialManager.init])]
  · simp only [YOLODetector.processDetection, hsend]
    have hcc : (({ SerialManager.init true with
        last_stm32_send_time := 1 } : SerialManager).can_count_new_garbage
          (display_text 1) 1).1 = false := by
      simp only [SerialManager.can_count_new_garbage]
      rw [check_detection_stability_reset _ _ _ (by simp [SerialManager.init])]
      simp
    rw [update_garbage_count_of_false _ _ _ hcc, can_count_new_garbage_gc]
    rfl

/-- Claim C4 amended: the relay step of `YOLODetector.detect` hands every
processed detection to `send_to_stm32` regardless of the stability
judgment; whether a packet goes out depends only on the link being open,
the rate limiter, and the write outcome. Stability gates only the event
counter. -/
theorem C4_relay_not_gated_by_stability (s : SerialManager) (cid : ℕ)
    (cx cy : ℤ) (now : ℚ) (wOk : Bool) :
    (YOLODetector.processDetection s cid cx cy now wOk).2
      = (s.send_to_stm32 cid cx cy now wOk).2 ∧
    (YOLODetector.processDetection s cid cx cy now wOk).2
      = (if s.stm32_port = some true ∧
            MIN_SEND_INTERVAL ≤ now - s.last_stm32_send_time ∧ wOk = true
         then some (encodeFrame cid cx cy) else none) :=
  ⟨rfl, send_to_stm32_frame_iff s cid cx cy now wOk⟩

/-- Claim C5 counterexample: at pixel 5 of a 1280-wide frame the exact scale
is 1275/1280 ≈ 0.996; the source's `int()` truncates it to 0 while the
spec's `clamp(round(...))` gives 1 — the encoded byte is not the rounded
value. -/
theorem C5_counterexample :
    scaleCoord 5 CAMERA_WIDTH = 0 ∧ scaleCoordSpec 5 CAMERA_WIDTH = 1 ∧
    scaleCoord 5 CAMERA_WIDTH ≠ scaleCoordSpec 5 CAMERA_WIDTH := by
  have ha : scaleCoord 5 CAMERA_WIDTH = 0 := by
    unfold scaleCoord pyInt
    norm_num [MAX_SERIAL_VALUE, CAMERA_WIDTH]
  have hb : scaleCoordSpec 5 CAMERA_WIDTH = 1 := by
    unfold scaleCoordSpec
    norm_num [MAX_SERIAL_VALUE, CAMERA_WIDTH, round_eq]
  exact ⟨ha, hb, by rw [ha, hb]; norm_num⟩

/-- Claim C5 amended: the encoded coordinate byte is
`clamp(trunc(coord * 255 / dimension), 0, 255)` — truncation toward zero
(Python `int()`), not rounding. It is a pure function of its arguments
(deterministic by construction), and for every coordinate in
`[0, dimension)` the clamps are no-ops: the result is the floor of the
exact scale and lies in `[0, 255]`. -/
theorem C5_scaling_truncation (coord : ℤ) (dimension : ℕ)
    (hdim : 0 < dimension) (h0 : 0 ≤ coord) (hlt : coord < dimension) :
    scaleCoord coord dimension
      = (⌊(coord * MAX_SERIAL_VALUE : ℚ) / (dimension : ℚ)⌋).toNat ∧
    scaleCoord coord dimension ≤ 255 := by
  have hdq : (0:ℚ) < (dimension : ℚ) := by exact_mod_cast hdim
  have hq0 : 0 ≤ (coord * MAX_SERIAL_VALUE : ℚ) / (dimension : ℚ) := by
    apply div_nonneg _ (le_of_lt hdq)
    have hc : (0:ℚ) ≤ (coord : ℚ) := by exact_mod_cast h0
    have : ((coord * MAX_SERIAL_VALUE : ℤ) : ℚ)
        = (coord : ℚ) * (MAX_SERIAL_VALUE : ℚ) := by push_cast; ring
    positivity
  have hqlt : (coord * MAX_SERIAL_VALUE : ℚ) / (dimension : ℚ)
      < (MAX_SERIAL_VALUE : ℚ) := by
    rw [div_lt_iff₀ hdq]
    have hcd : (coord : ℚ) < (dimension : ℚ) := by exact_mod_cast hlt
    have hm : (0:ℚ) < (MAX_SERIAL_VALUE : ℚ) := by
      norm_num [MAX_SERIAL_VALUE]
    nlinarith
  have hfl0 : 0 ≤ ⌊(coord * MAX_SERIAL_VALUE : ℚ) / (dimension : ℚ)⌋ :=
    Int.floor_nonneg.mpr hq0
  have hfl255 : ⌊(coord * MAX_SERIAL_VALUE : ℚ) / (dimension : ℚ)⌋
      ≤ (MAX_SERIAL_VALUE : ℤ) := by
    have h1 := Int.floor_le ((coord * MAX_SERIAL_VALUE : ℚ) / (dimension : ℚ))
    have h2 := lt_of_le_of_lt h1 hqlt
    exact_mod_cast le_of_lt h2
  constructor
  · unfold scaleCoord pyInt
    rw [if_pos hq0, max_eq_right hfl0, min_eq_right hfl255]
  · unfold scaleCoord
    have h := min_le_left (MAX_SERIAL_VALUE : ℤ)
      (max 0 (pyInt ((coord * MAX_SERIAL_VALUE : ℚ) / (dimension : ℚ))))
    exact Int.toNat_le.mpr (by exact_mod_cast h)

/-- Witness for the amended C5: the frame center x = 640 of a 1280-wide
frame encodes to the truncated byte (127, not the rounded 128). -/
theorem C5_scaling_truncation_witness :
    scaleCoord 640 CAMERA_WIDTH
      = (⌊(640 * MAX_SERIAL_VALUE : ℚ) / (CAMERA_WIDTH : ℚ)⌋).toNat ∧
    scaleCoord 640 CAMERA_WIDTH ≤ 255 :=
  C5_scaling_truncation 640 CAMERA_WIDTH (by norm_num [CAMERA_WIDTH])
    (by norm_num) (by norm_num [CAMERA_WIDTH])

/-- Claim C6: every packet handed to the physical write is the 3-byte
`encodeFrame` laid out `[class byte, scaled x, scaled y]`; the sentinel is
`max(known class ids) + 1 = 4`; class id 0 is always remapped to it, so
the class byte of a frame for class 0 is never `0x00`. -/
theorem C6_frame_layout (cid : ℕ) (cx cy : ℤ) :
    encodeFrame cid cx cy
      = [if cid = 0 then zero_mapping else cid,
         scaleCoord cx CAMERA_WIDTH, scaleCoord cy CAMERA_HEIGHT] ∧
    (encodeFrame cid cx cy).length = 3 ∧
    zero_mapping = 4 ∧
    (cid = 0 → (encodeFrame cid cx cy).head? = some 4 ∧
      (encodeFrame cid cx cy).head? ≠ some 0) ∧
    ∀ (s : SerialManager) (now : ℚ) (wOk : Bool) (fr : List ℕ),
      (s.send_to_stm32 cid cx cy now wOk).2 = some fr →
      fr = encodeFrame cid cx cy := by
  refine ⟨rfl, rfl, rfl, fun h0 => ?_, fun s now wOk fr hfr => ?_⟩
  · subst h0
    have hz : (encodeFrame 0 cx cy).head? = some 4 := rfl
    exact ⟨hz, fun h => absurd (hz.symm.trans h) (by decide)⟩
  · rw [send_to_stm32_frame_iff] at hfr
    split_ifs at hfr
    exact (Option.some.inj hfr).symm

/-- Witness for C6 at class id 0. -/
theorem C6_frame_layout_witness :
    (encodeFrame 0 640 360).head? = some 4 ∧
    (encodeFrame 0 640 360).head? ≠ some 0 ∧
    (encodeFrame 0 640 360).length = 3 :=
  ⟨((C6_frame_layout 0 640 360).2.2.2.1 rfl).1,
   ((C6_frame_layout 0 640 360).2.2.2.1 rfl).2,
   (C6_frame_layout 0 640 360).2.1⟩

/-- Claim C8: a `SerialException` in the background receive loop closes the
handle, sleeps the fixed 1s backoff, and makes exactly one reopen attempt.
If the reopen fails, the loop executes no further iteration whatever work
remains scripted (the thread terminates with the port closed); if it
succeeds, the loop goes on. Foreground `send_to_stm32` calls against the
resulting closed link are silent no-ops. -/
theorem C8_receive_error_recovery (s : SerialManager)
    (hrun : s.is_running = true) (hport : s.stm32_port = some true)
    (events : List RecvEvent) (cid : ℕ) (cx cy : ℤ) (now : ℚ)
    (wOk : Bool) :
    (s.receiveStep (RecvEvent.serialErr false)).2.2 = 1 ∧
    s.receive_stm32_data (RecvEvent.serialErr false :: events)
      = ({ s with stm32_port := some false }, 1) ∧
    (s.receive_stm32_data (RecvEvent.serialErr true :: events)).2
      = (SerialManager.receive_stm32_data
          { s with stm32_port := some true } events).2 + 1 ∧
    ({ s with stm32_port := some false } : SerialManager).send_to_stm32
        cid cx cy now wOk
      = ({ s with stm32_port := some false }, none) := by
  refine ⟨rfl, ?_, ?_, ?_⟩
  · simp only [SerialManager.receive_stm32_data]
    rw [if_pos ⟨hrun, hport⟩]
    rfl
  · simp only [SerialManager.receive_stm32_data]
    rw [if_pos ⟨hrun, hport⟩]
    rfl
  · unfold SerialManager.send_to_stm32
    rw [if_pos (by simp)]

/-- Witness for C8 at the freshly initialized manager, with one more
scripted iteration that is never executed after the failed reopen. -/
theorem C8_receive_error_recovery_witness :
    (SerialManager.init true).receive_stm32_data
        [RecvEvent.serialErr false, RecvEvent.otherErr]
      = ({ SerialManager.init true with stm32_port := some false }, 1) ∧
    ({ SerialManager.init true with stm32_port := some false }
        : SerialManager).send_to_stm32 3 100 100 5 true
      = ({ SerialManager.init true with stm32_port := some false },
         none) := by
  have H := C8_receive_error_recovery (SerialManager.init true) rfl rfl
    [RecvEvent.otherErr] 3 100 100 5 true
  exact ⟨H.2.1, H.2.2.2⟩

/-- Claim C9, evaluation of the code at the failing input: the inbound
filter discards all-`0x00` buffers, but a buffer consisting of `0xFF`
bytes IS surfaced: `errors='replace'` decodes the invalid byte `0xFF` to
U+FFFD, which is not in the filter list `['\x00', '\xff']`, so
`any(...)` is true and the buffer is logged — contradicting both the
spec and the source's own comment that all-`0x00`/`0xFF` buffers are
filtered out. -/
theorem C9_idle_noise_filter_evaluation :
    surfacesInboundData [0xFF] = true ∧
    surfacesInboundData [0xFF, 0xFF, 0xFF] = true ∧
    surfacesInboundData [0x00] = false ∧
    surfacesInboundData [0x00, 0x00, 0x00] = false ∧
    surfacesInboundData [0x00, 0xFF] = true ∧
    utf8DecodeReplace [0xFF] = [0xFFFD] := by decide
